import Mathlib

set_option maxHeartbeats 1000000

/-!
Verification of the blunder error-handling library.

The library has two components:

* `BsdError` (src/bsd.rs): a closed enumeration of the extended POSIX/BSD
  errno space, generated by `enum_from_primitive!`.  The macro supplies
  `BsdError.from_i32`, a pure match of the input integer against every
  declared discriminant.  The `Error` impl supplies `description` (a fixed
  string per variant) and `cause` (always `None`).  `from_errno` reads the
  thread's errno register and feeds it to `from_i32`; the register read is
  embedded here by passing the register's current value explicitly.
  The `Display` impl formats `self` with `{}` inside its own `fmt`, which
  re-enters the same `fmt`; that recursion is embedded fuel-indexed below
  as `BsdError.fmtFuel`.

* `Blunder` (src/lib.rs): a generic wrapper `Blunder<T: Error>` holding a
  `kind : T` and a `detail : Option String`.  The Rust `Error` trait bound
  (`description`/`cause`) is embedded as an explicit dictionary
  `StdErrorOps T C`, where `C` stands for the type of the trait object a
  cause is reported as.  `Deref`, `detail()` (a clone of the field, hence
  the field projection itself here), `description`, `cause`, `Display`,
  `From<E>` and `Into<std::io::Error>` (embedded generically over the
  delegate conversion `conv`) are each translated directly.  The derived
  `PartialEq` compares both fields, embedded as `Blunder.beq` over an
  arbitrary boolean equality on the kind.
-/

inductive BsdError : Type where
  | EPERM | ENOENT | ESRCH | EINTR | EIO | ENXIO | E2BIG | ENOEXEC | EBADF
  | ECHILD | EDEADLK | ENOMEM | EACCES | EFAULT | ENOTBLK | EBUSY | EEXIST | EXDEV | ENODEV
  | ENOTDIR | EISDIR | EINVAL | ENFILE | EMFILE | ENOTTY | ETXTBSY | EFBIG | ENOSPC | ESPIPE
  | EROFS | EMLINK | EPIPE | EDOM | ERANGE | EAGAIN | EINPROGRESS | EALREADY | ENOTSOCK | EDESTADDRREQ
  | EMSGSIZE | EPROTOTYPE | ENOPROTOOPT | EPROTONOSUPPORT | ESOCKTNOSUPPORT | EOPNOTSUPP | EPFNOSUPPORT | EAFNOSUPPORT | EADDRINUSE | EADDRNOTAVAIL
  | ENETDOWN | ENETUNREACH | ENETRESET | ECONNABORTED | ECONNRESET | ENOBUFS | EISCONN | ENOTCONN | ESHUTDOWN
  | ETIMEDOUT | ECONNREFUSED | ELOOP | ENAMETOOLONG | EHOSTDOWN | EHOSTUNREACH | ENOTEMPTY | EPROCLIM | EUSERS | EDQUOT
  | ESTALE | EBADRPC | ERPCMISMATCH | EPROGUNAVAIL | EPROGMISMATCH | EPROCUNAVAIL | ENOLCK | ENOSYS | EFTYPE
  | EAUTH | ENEEDAUTH | EIDRM | ENOMSG | EOVERFLOW | ECANCELED | EILSEQ | ENOATTR | EDOOFUS | EBADMSG
  | EMULTIHOP | ENOLINK | EPROTO | ENOTCAPABLE | ECAPMODE | ENOTRECOVERABLE | EOWNERDEAD
  deriving DecidableEq, BEq

def BsdError.discriminant : BsdError → Int
  | BsdError.EPERM => 1
  | BsdError.ENOENT => 2
  | BsdError.ESRCH => 3
  | BsdError.EINTR => 4
  | BsdError.EIO => 5
  | BsdError.ENXIO => 6
  | BsdError.E2BIG => 7
  | BsdError.ENOEXEC => 8
  | BsdError.EBADF => 9
  | BsdError.ECHILD => 10
  | BsdError.EDEADLK => 11
  | BsdError.ENOMEM => 12
  | BsdError.EACCES => 13
  | BsdError.EFAULT => 14
  | BsdError.ENOTBLK => 15
  | BsdError.EBUSY => 16
  | BsdError.EEXIST => 17
  | BsdError.EXDEV => 18
  | BsdError.ENODEV => 19
  | BsdError.ENOTDIR => 20
  | BsdError.EISDIR => 21
  | BsdError.EINVAL => 22
  | BsdError.ENFILE => 23
  | BsdError.EMFILE => 24
  | BsdError.ENOTTY => 25
  | BsdError.ETXTBSY => 26
  | BsdError.EFBIG => 27
  | BsdError.ENOSPC => 28
  | BsdError.ESPIPE => 29
  | BsdError.EROFS => 30
  | BsdError.EMLINK => 31
  | BsdError.EPIPE => 32
  | BsdError.EDOM => 33
  | BsdError.ERANGE => 34
  | BsdError.EAGAIN => 35
  | BsdError.EINPROGRESS => 36
  | BsdError.EALREADY => 37
  | BsdError.ENOTSOCK => 38
  | BsdError.EDESTADDRREQ => 39
  | BsdError.EMSGSIZE => 40
  | BsdError.EPROTOTYPE => 41
  | BsdError.ENOPROTOOPT => 42
  | BsdError.EPROTONOSUPPORT => 43
  | BsdError.ESOCKTNOSUPPORT => 44
  | BsdError.EOPNOTSUPP => 45
  | BsdError.EPFNOSUPPORT => 46
  | BsdError.EAFNOSUPPORT => 47
  | BsdError.EADDRINUSE => 48
  | BsdError.EADDRNOTAVAIL => 49
  | BsdError.ENETDOWN => 50
  | BsdError.ENETUNREACH => 51
  | BsdError.ENETRESET => 52
  | BsdError.ECONNABORTED => 53
  | BsdError.ECONNRESET => 54
  | BsdError.ENOBUFS => 55
  | BsdError.EISCONN => 56
  | BsdError.ENOTCONN => 57
  | BsdError.ESHUTDOWN => 58
  | BsdError.ETIMEDOUT => 60
  | BsdError.ECONNREFUSED => 61
  | BsdError.ELOOP => 62
  | BsdError.ENAMETOOLONG => 63
  | BsdError.EHOSTDOWN => 64
  | BsdError.EHOSTUNREACH => 65
  | BsdError.ENOTEMPTY => 66
  | BsdError.EPROCLIM => 67
  | BsdError.EUSERS => 68
  | BsdError.EDQUOT => 69
  | BsdError.ESTALE => 70
  | BsdError.EBADRPC => 71
  | BsdError.ERPCMISMATCH => 72
  | BsdError.EPROGUNAVAIL => 73
  | BsdError.EPROGMISMATCH => 74
  | BsdError.EPROCUNAVAIL => 75
  | BsdError.ENOLCK => 76
  | BsdError.ENOSYS => 77
  | BsdError.EFTYPE => 78
  | BsdError.EAUTH => 80
  | BsdError.ENEEDAUTH => 81
  | BsdError.EIDRM => 82
  | BsdError.ENOMSG => 83
  | BsdError.EOVERFLOW => 84
  | BsdError.ECANCELED => 85
  | BsdError.EILSEQ => 86
  | BsdError.ENOATTR => 87
  | BsdError.EDOOFUS => 88
  | BsdError.EBADMSG => 89
  | BsdError.EMULTIHOP => 90
  | BsdError.ENOLINK => 91
  | BsdError.EPROTO => 92
  | BsdError.ENOTCAPABLE => 93
  | BsdError.ECAPMODE => 94
  | BsdError.ENOTRECOVERABLE => 95
  | BsdError.EOWNERDEAD => 96

def BsdError.from_i32 (n : Int) : Option BsdError :=
  if n = 1 then some BsdError.EPERM else
  if n = 2 then some BsdError.ENOENT else
  if n = 3 then some BsdError.ESRCH else
  if n = 4 then some BsdError.EINTR else
  if n = 5 then some BsdError.EIO else
  if n = 6 then some BsdError.ENXIO else
  if n = 7 then some BsdError.E2BIG else
  if n = 8 then some BsdError.ENOEXEC else
  if n = 9 then some BsdError.EBADF else
  if n = 10 then some BsdError.ECHILD else
  if n = 11 then some BsdError.EDEADLK else
  if n = 12 then some BsdError.ENOMEM else
  if n = 13 then some BsdError.EACCES else
  if n = 14 then some BsdError.EFAULT else
  if n = 15 then some BsdError.ENOTBLK else
  if n = 16 then some BsdError.EBUSY else
  if n = 17 then some BsdError.EEXIST else
  if n = 18 then some BsdError.EXDEV else
  if n = 19 then some BsdError.ENODEV else
  if n = 20 then some BsdError.ENOTDIR else
  if n = 21 then some BsdError.EISDIR else
  if n = 22 then some BsdError.EINVAL else
  if n = 23 then some BsdError.ENFILE else
  if n = 24 then some BsdError.EMFILE else
  if n = 25 then some BsdError.ENOTTY else
  if n = 26 then some BsdError.ETXTBSY else
  if n = 27 then some BsdError.EFBIG else
  if n = 28 then some BsdError.ENOSPC else
  if n = 29 then some BsdError.ESPIPE else
  if n = 30 then some BsdError.EROFS else
  if n = 31 then some BsdError.EMLINK else
  if n = 32 then some BsdError.EPIPE else
  if n = 33 then some BsdError.EDOM else
  if n = 34 then some BsdError.ERANGE else
  if n = 35 then some BsdError.EAGAIN else
  if n = 36 then some BsdError.EINPROGRESS else
  if n = 37 then some BsdError.EALREADY else
  if n = 38 then some BsdError.ENOTSOCK else
  if n = 39 then some BsdError.EDESTADDRREQ else
  if n = 40 then some BsdError.EMSGSIZE else
  if n = 41 then some BsdError.EPROTOTYPE else
  if n = 42 then some BsdError.ENOPROTOOPT else
  if n = 43 then some BsdError.EPROTONOSUPPORT else
  if n = 44 then some BsdError.ESOCKTNOSUPPORT else
  if n = 45 then some BsdError.EOPNOTSUPP else
  if n = 46 then some BsdError.EPFNOSUPPORT else
  if n = 47 then some BsdError.EAFNOSUPPORT else
  if n = 48 then some BsdError.EADDRINUSE else
  if n = 49 then some BsdError.EADDRNOTAVAIL else
  if n = 50 then some BsdError.ENETDOWN else
  if n = 51 then some BsdError.ENETUNREACH else
  if n = 52 then some BsdError.ENETRESET else
  if n = 53 then some BsdError.ECONNABORTED else
  if n = 54 then some BsdError.ECONNRESET else
  if n = 55 then some BsdError.ENOBUFS else
  if n = 56 then some BsdError.EISCONN else
  if n = 57 then some BsdError.ENOTCONN else
  if n = 58 then some BsdError.ESHUTDOWN else
  if n = 60 then some BsdError.ETIMEDOUT else
  if n = 61 then some BsdError.ECONNREFUSED else
  if n = 62 then some BsdError.ELOOP else
  if n = 63 then some BsdError.ENAMETOOLONG else
  if n = 64 then some BsdError.EHOSTDOWN else
  if n = 65 then some BsdError.EHOSTUNREACH else
  if n = 66 then some BsdError.ENOTEMPTY else
  if n = 67 then some BsdError.EPROCLIM else
  if n = 68 then some BsdError.EUSERS else
  if n = 69 then some BsdError.EDQUOT else
  if n = 70 then some BsdError.ESTALE else
  if n = 71 then some BsdError.EBADRPC else
  if n = 72 then some BsdError.ERPCMISMATCH else
  if n = 73 then some BsdError.EPROGUNAVAIL else
  if n = 74 then some BsdError.EPROGMISMATCH else
  if n = 75 then some BsdError.EPROCUNAVAIL else
  if n = 76 then some BsdError.ENOLCK else
  if n = 77 then some BsdError.ENOSYS else
  if n = 78 then some BsdError.EFTYPE else
  if n = 80 then some BsdError.EAUTH else
  if n = 81 then some BsdError.ENEEDAUTH else
  if n = 82 then some BsdError.EIDRM else
  if n = 83 then some BsdError.ENOMSG else
  if n = 84 then some BsdError.EOVERFLOW else
  if n = 85 then some BsdError.ECANCELED else
  if n = 86 then some BsdError.EILSEQ else
  if n = 87 then some BsdError.ENOATTR else
  if n = 88 then some BsdError.EDOOFUS else
  if n = 89 then some BsdError.EBADMSG else
  if n = 90 then some BsdError.EMULTIHOP else
  if n = 91 then some BsdError.ENOLINK else
  if n = 92 then some BsdError.EPROTO else
  if n = 93 then some BsdError.ENOTCAPABLE else
  if n = 94 then some BsdError.ECAPMODE else
  if n = 95 then some BsdError.ENOTRECOVERABLE else
  if n = 96 then some BsdError.EOWNERDEAD else
  none


/-- The per-variant text of `impl Error for BsdError { fn description ... }`
(src/bsd.rs), with Rust's backslash line continuations joined. -/
def BsdError.description : BsdError → String
  | BsdError.EPERM => "Operation not permitted. An attempt was made to perform an operation limited to processes with appropriate privileges or to the owner of a file or other resources."
  | BsdError.ENOENT => "No such file or directory. A component of a specified pathname did not exist, or the pathname was an empty string."
  | BsdError.ESRCH => "No such process. No process could be found corresponsing to that specified by the given ID."
  | BsdError.EINTR => "Interrupted system call. An asynchronous signal (such as SIGINT or SIGQUIT) was caught by the process during the execution of an interruptible function. If the signal handler performs a normal return, the interrupted system call will seem to have returned the error condition."
  | BsdError.EIO => "Input/output error. Some physical input or output error occurred. This error will not be reported until a subsequent operation on the same file descriptor and may be lost (over written) by any subsequent errors."
  | BsdError.ENXIO => "Device not configured. Input or output on a special file referred to a device that did not exist, or made a request beyond the limits of the device.  This error may also occur when, for example, a tape drive is not online or no disk pack is loaded on a drive"
  | BsdError.E2BIG => "Argument list too long. The number of bytes used for the argument and environment list of the new process exceeded the current limit (NCARGS in <sys/param.h>)."
  | BsdError.ENOEXEC => "Exec format error. A request was made to execute a file that, although it has the appropriate permissions, was not in the format required for an executable file."
  | BsdError.EBADF => "Bad file descriptor. A file descriptor argument was out of range, referred to no open file, or a read (write) request was made to a file that was only open for writing (reading)."
  | BsdError.ECHILD => "No child processes. A wait(2) or waitpid(2) function was executed by a process that had no existing or unwaited-for child processes."
  | BsdError.EDEADLK => "Resource deadlock avoided. An attempt was made to lock a system resource that would have resulted in a deadlock situation."
  | BsdError.ENOMEM => "Cannot allocate memory. The new process image required more memory than was allowed by the hardware or by system-imposed memory management constraints. A lack of swap space is normally temporary; however, a lack of core is not.  Soft limits may be increased to their corresponding hard limits."
  | BsdError.EACCES => "Permission denied. An attempt was made to access a file in a way forbidden by its file access permissions."
  | BsdError.EFAULT => "Bad address. The system detected an invalid address in attempting to use an argument of a call."
  | BsdError.ENOTBLK => "Block device required. A block device operation was attempted on a non-block device or file."
  | BsdError.EBUSY => "Device busy. An attempt to use a system resource which was in use at the time in a manner which would have conflicted with the request"
  | BsdError.EEXIST => "File exists. An existing file was mentioned in an inappropriate context, for instance, as the new link name in a link(2) system call"
  | BsdError.EXDEV => "Cross-device link. A hard link to a file on another file system was attempted."
  | BsdError.ENODEV => "Operation not supported by device. An attempt was made to apply an inappropriate function to a device, for example, trying to read a write-only device such as a printer."
  | BsdError.ENOTDIR => "Not a directory. A component of the specified pathname existed, but it was not a directory, when a directory was expected."
  | BsdError.EISDIR => "Is a directory. An attempt was made to open a directory with write mode specified."
  | BsdError.EINVAL => "Invalid argument. Some invalid argument was supplied. (For example, specifying an undefined signal to a signal(3) function or a kill(2) system call)."
  | BsdError.ENFILE => "Too many open files in system. Maximum number of open files allowable on the system has been reached and requests for an open cannot be satisfied until at least one has been closed."
  | BsdError.EMFILE => "Too many open files. Maximum number of file descriptors allowable in the process has been reached and requests for an open cannot be satisfied until at least one has been closed. The getdtablesize(2) system call will obtain the current limit."
  | BsdError.ENOTTY => "Inappropriate ioctl for device. A control function (see ioctl(2)) was attempted for a file or special device for which the operation was inappropriate."
  | BsdError.ETXTBSY => "Text file busy. The new process was a pure procedure (shared text) file which was open for writing by another process, or while the pure procedure file was being executed an open(2) call requested write access."
  | BsdError.EFBIG => "File too large. The size of a file exceeded the maximum."
  | BsdError.ENOSPC => "No space left on device. A write(2) to an ordinary file, the creation of a directory or symbolic link, or the creation of a directory entry failed because no more disk blocks were available on the file system, or the allocation of an inode for a newly created file failed because no more inodes were available on the file system."
  | BsdError.ESPIPE => "Illegal seek. An lseek(2) system call was issued on a socket, pipe or FIFO."
  | BsdError.EROFS => "Read-only file system. An attempt was made to modify a file or directory on a file system that was read-only at the time."
  | BsdError.EMLINK => "Too many links. Maximum allowable hard links to a single file has been exceeded (limit of 32767 hard links per file)."
  | BsdError.EPIPE => "Broken pipe. A write on a pipe, socket or FIFO for which there is no process to read the data."
  | BsdError.EDOM => "Numerical argument out of domain. A numerical input argument was outside the defined domain of the mathematical function."
  | BsdError.ERANGE => "Result too large. A numerical result of the function was too large to fit in the available space (perhaps exceeded precision)."
  | BsdError.EAGAIN => "Resource temporarily unavailable. This is a temporary condition and later calls to the same routine may complete normally."
  | BsdError.EINPROGRESS => "Operation now in progress. An operation that takes a long time to complete (such as a connect(2)) was attempted on a non-blocking object (see fcntl(2))."
  | BsdError.EALREADY => "Operation already in progress. An operation was attempted on a non-blocking object that already had an operation in progress."
  | BsdError.ENOTSOCK => "Socket operation on non-socket. Self-explanatory."
  | BsdError.EDESTADDRREQ => "Destination address required. A required address was omitted from an operation on a socket."
  | BsdError.EMSGSIZE => "Message too long. A message sent on a socket was larger than the internal message buffer or some other network limit."
  | BsdError.EPROTOTYPE => "Protocol wrong type for socket. A protocol was specified that does not support the semantics of the socket type requested. For example, you cannot use the ARPA Internet UDP protocol with type SOCK_STREAM."
  | BsdError.ENOPROTOOPT => "Protocol not available. A bad option or level was specified in a getsockopt(2) or setsockopt(2) call."
  | BsdError.EPROTONOSUPPORT => "Protocol not supported. The protocol has not been configured into the system or no implementation for it exists."
  | BsdError.ESOCKTNOSUPPORT => "Socket type not supported. The support for the socket type has not been configured into the system or no implementation for it exists."
  | BsdError.EOPNOTSUPP => "Operation not supported. The attempted operation is not supported for the type of object referenced. Usually this occurs when a file descriptor refers to a file or socket that cannot support this operation, for example, trying to accept a connection on a datagram socket."
  | BsdError.EPFNOSUPPORT => "Protocol family not supported. The protocol family has not been configured into the system or no implementation for it exists."
  | BsdError.EAFNOSUPPORT => "Address family not  supported by protocol family. An address incompatible with the requested protocol was used. For example, you should not necessarily expect to be able to use NS addresses with ARPA Internet protocols."
  | BsdError.EADDRINUSE => "Address already in use. Only one usage of each address is normally permitted."
  | BsdError.EADDRNOTAVAIL => "Can\x27t assign requested address. Normally results from an attempt to create a socket with an address not on this machine."
  | BsdError.ENETDOWN => "Network is down. A socket operation encountered a dead network."
  | BsdError.ENETUNREACH => "Network is unreachable. A socket operation was attempted to an unreachable network."
  | BsdError.ENETRESET => "Network dropped connection on reset. The host you were connected to crashed and rebooted."
  | BsdError.ECONNABORTED => "Software caused connectionabort. A connection abort was caused internal to your host machine."
  | BsdError.ECONNRESET => "Connection reset by peer. A connection was forcibly closed by a peer. This normally results from a loss of the connection on the remote socket due to a timeout or a reboot."
  | BsdError.ENOBUFS => "No buffer space available. An operation on a socket or pipe was not performed because the system lacked sufficient buffer space or because a queue was full."
  | BsdError.EISCONN => "Socket is already connected. A connect(2) request was made on an already connected socket; or, a sendto(2) or sendmsg(2) request on a connected socket specified a destination when already connected."
  | BsdError.ENOTCONN => "Socket  is not connected. An request to send or receive data was disallowed because the socket was not connected and (when sending on a datagram socket) no address was supplied."
  | BsdError.ESHUTDOWN => "Can\x27t send after socket shutdown. A request to send data was disallowed because the socket had already been shut down with a previous shutdown(2) call."
  | BsdError.ETIMEDOUT => "Operation timed out. A connect(2) or send(2) request failed because the connected party did not properly respond after a period of time.  (The timeout period is dependent on the communication protocol.)"
  | BsdError.ECONNREFUSED => "Connection refused. No connection could be made because the target machine actively refused it.  This usually results from trying to connect to a service that is inactive on the foreign host."
  | BsdError.ELOOP => "Too many levels of symbolic links. A path name lookup involved more than 32 (MAXSYMLINKS) symbolic links."
  | BsdError.ENAMETOOLONG => "File name too long. A component of a path name exceeded {NAME_MAX} characters, or an entire path name exceeded {PATH_MAX} characters.(See also the description of _PC_NO_TRUNC in pathconf(2).)"
  | BsdError.EHOSTDOWN => "Host is down. A socket operation failed because the destination host was down."
  | BsdError.EHOSTUNREACH => "No route to host. A socket operation was attempted to an unreachable host."
  | BsdError.ENOTEMPTY => "Directory not empty. A directory with entries other than `.\x27 and `..\x27 was supplied to a remove directory or rename call."
  | BsdError.EPROCLIM => "Too many processes."
  | BsdError.EUSERS => "Too many users. The quota system ran out of table entries."
  | BsdError.EDQUOT => "Disc quota exceeded. A write(2) to an ordinary file, the creation of a directory or symbolic link, or the creation of a directory entry failed because the user\x27s quota of disk blocks was exhausted, or the allocation of an inode for a newly created file failed because the user\x27s quota of inodes was exhausted."
  | BsdError.ESTALE => "Stale NFS file handle. An attempt was made to access an open file (on an NFS file system) which is now unavailable as referenced by the file descriptor.  This may indicate the file was deleted on the NFS server or some other catastrophic event occurred."
  | BsdError.EBADRPC => "RPC struct is bad. Exchange of RPC information was unsuccessful."
  | BsdError.ERPCMISMATCH => "RPC version wrong. The version of RPC on the remote peer is not compatible with the local version."
  | BsdError.EPROGUNAVAIL => "RPC prog. not avail. The requested program is not  registered on the remote host."
  | BsdError.EPROGMISMATCH => "Program version wrong. The requested version of the program is not available on the remote host (RPC)."
  | BsdError.EPROCUNAVAIL => "Bad procedure for program. An RPC call was attempted for a procedure which does not exist in the remote program."
  | BsdError.ENOLCK => "No locks available. A system-imposed limit on the number of simultaneous file locks was reached."
  | BsdError.ENOSYS => "Function not implemented. Attempted a system call that is not available on this system."
  | BsdError.EFTYPE => "Inappropriate file type or format. The file was the wrong type for the operation, or a data file had the wrong format."
  | BsdError.EAUTH => "Authentication error. Attempted to use an invalid authentication ticket to mount a NFS file system."
  | BsdError.ENEEDAUTH => "Need authenticator. An authentication ticket must be obtained before the given NFS file system may be mounted."
  | BsdError.EIDRM => "Identifier removed. An IPC identifier was removed while the current process was waiting on it."
  | BsdError.ENOMSG => "No message of desired type. An IPC message queue does not contain a message of the desired type, or a message catalog does not contain the requested message."
  | BsdError.EOVERFLOW => "Value too large to be stored in data type. A numerical result of the function was too large to be stored in the caller provided space."
  | BsdError.ECANCELED => "Operation canceled. The scheduled operation was canceled."
  | BsdError.EILSEQ => "Illegal byte sequence.  While decoding a multibyte character the function came along an invalid or an incomplete sequence of bytes or the given wide character is invalid."
  | BsdError.ENOATTR => "Attribute not found. The specified extended attribute does not exist."
  | BsdError.EDOOFUS => "Programming error. A function or API is being abused in a way which could only be detected at run-time."
  | BsdError.EBADMSG => "Bad message. A corrupted message was detected."
  | BsdError.EMULTIHOP => "Multihop attempted. This error code is unused, but present for compatibility with other systems."
  | BsdError.ENOLINK => "Link has been severed. This error code is unused, but present for compatibility with other systems."
  | BsdError.EPROTO => "Protocol error. A device or socket encountered an unrecoverable protocol error."
  | BsdError.ENOTCAPABLE => "Capabilities insufficient. An operation on a capability file descriptor requires greater privilege than the capability allows."
  | BsdError.ECAPMODE => "Not permitted in capability mode. The system call or operation is not permitted for capability mode processes."
  | BsdError.ENOTRECOVERABLE => "State not recoverable. The state protected by a robust mutex is not recoverable."
  | BsdError.EOWNERDEAD => "Previous owner died. The owner of a robust mutex terminated while holding the mutex lock."

/-- Embedding of `BsdError::from_errno` (src/bsd.rs lines 29-32): the code
reads the thread's errno register and feeds it through `from_i32`.  The
stateful register read is embedded by passing the register's current value
`errnoVal` explicitly. -/
def BsdError.from_errno (errnoVal : Int) : Option BsdError :=
  BsdError.from_i32 errnoVal

/-- Embedding of `impl Display for BsdError` (src/bsd.rs lines 417-421):
`write!(f, "{}: {}", self, self.description())`.  The first `{}` argument is
`self`, which re-enters this very `fmt`.  The recursion is embedded with an
explicit recursion-depth bound `fuel`: the result is `some s` when the
formatting completes within `fuel` nested calls and `none` when it does not.
An output of the real code corresponds to `some s` at some finite fuel. -/
def BsdError.fmtFuel : Nat → BsdError → Option String
  | 0, _ => none
  | Nat.succ fuel, e =>
    match BsdError.fmtFuel fuel e with
    | some s => some (s ++ ": " ++ BsdError.description e)
    | none => none

/-- Embedding of the Rust `std::error::Error` trait bound `T: StdError`
(description and cause); `C` is the type standing for the trait object a
cause is reported as. -/
structure StdErrorOps (T : Type) (C : Type) : Type where
  description : T → String
  cause : T → Option C

/-- Embedding of `struct Blunder<T: StdError> { kind: T, detail: Option<String> }`
(src/lib.rs lines 37-42).  The Rust method `detail()` returns
`self.detail.clone()`; a clone of an owned value is the value itself, so the
method is embedded as the `detail` field projection. -/
structure Blunder (T : Type) : Type where
  kind : T
  detail : Option String
  deriving DecidableEq

/-- Embedding of `impl Deref for Blunder` (src/lib.rs lines 45-51):
`fn deref(&self) -> &T { &self.kind }`. -/
def Blunder.deref {T : Type} (b : Blunder T) : T :=
  b.kind

/-- Embedding of `impl StdError for Blunder`, `fn description` (src/lib.rs
lines 60-62): `self.kind.description()`. -/
def Blunder.description {T C : Type} (ops : StdErrorOps T C) (b : Blunder T) : String :=
  ops.description b.kind

/-- Embedding of `impl StdError for Blunder`, `fn cause` (src/lib.rs lines
63-65): `self.kind.cause()`. -/
def Blunder.cause {T C : Type} (ops : StdErrorOps T C) (b : Blunder T) : Option C :=
  ops.cause b.kind

/-- Embedding of `impl fmt::Display for Blunder` (src/lib.rs lines 68-72):
`write!(f, "{}", self.description())`. -/
def Blunder.display {T C : Type} (ops : StdErrorOps T C) (b : Blunder T) : String :=
  Blunder.description ops b

/-- Embedding of `impl From<E> for Blunder<E>` (src/lib.rs lines 73-77):
`Blunder { kind: err, detail: None }`.  Named `fromKind` because `from` is a
reserved word in Lean. -/
def Blunder.fromKind {T : Type} (err : T) : Blunder T :=
  Blunder.mk err none

/-- Embedding of `impl Into<std::io::Error> for Blunder<E> where E: Into<std::io::Error>`
(src/lib.rs lines 79-83): `self.kind.into()`.  The target representation and
the inner kind's conversion are abstracted as `γ` and `conv`. -/
def Blunder.into {T γ : Type} (conv : T → γ) (b : Blunder T) : γ :=
  conv b.kind

/-- Embedding of the derived `PartialEq` on `Blunder` (src/lib.rs line 37):
field-wise comparison of `kind` (by the kind type's own equality `eqT`) and
`detail` (by `Option<String>` equality). -/
def Blunder.beq {T : Type} (eqT : T → T → Bool) (a b : Blunder T) : Bool :=
  eqT a.kind b.kind && (a.detail == b.detail)

/-- C1: the spec claims formatting a `BsdError` with `Display` produces
exactly the string "{variant-name}: {description}".  The code cannot: its
`Display::fmt` formats `self` with `{}` inside itself, re-entering the same
`fmt`, so the formatting never completes.  This theorem evaluates the
fuel-indexed embedding of that implementation: at every recursion depth and
for every variant it yields no output at all, so in particular the claimed
finite output string is never produced. -/
theorem fmtFuel_diverges : ∀ (fuel : Nat) (e : BsdError), BsdError.fmtFuel fuel e = none := by
  intro fuel
  induction fuel with
  | zero => intro e; rfl
  | succ m ih =>
    intro e
    simp only [BsdError.fmtFuel]
    rw [ih e]

/-- C2: `from_i32` is a total pure lookup: it sends the discriminant of every
variant to that variant, sends every integer that is no variant's
discriminant (hence 0 and all negatives) to `none`, and never answers with a
wrong variant. -/
theorem from_i32_table_correct :
    (∀ e : BsdError, BsdError.from_i32 (BsdError.discriminant e) = some e) ∧
    (∀ n : Int, (∀ e : BsdError, BsdError.discriminant e ≠ n) → BsdError.from_i32 n = none) ∧
    (∀ (n : Int) (e : BsdError), BsdError.from_i32 n = some e → BsdError.discriminant e = n) := by
  have h1 : ∀ e : BsdError, BsdError.from_i32 (BsdError.discriminant e) = some e := by
    intro e
    cases e <;> decide
  have h2 : ∀ n : Int, (∀ e : BsdError, BsdError.discriminant e ≠ n) → BsdError.from_i32 n = none := by
    intro n h
    unfold BsdError.from_i32
    rw [if_neg (fun hk => h BsdError.EPERM hk.symm),
        if_neg (fun hk => h BsdError.ENOENT hk.symm),
        if_neg (fun hk => h BsdError.ESRCH hk.symm),
        if_neg (fun hk => h BsdError.EINTR hk.symm),
        if_neg (fun hk => h BsdError.EIO hk.symm),
        if_neg (fun hk => h BsdError.ENXIO hk.symm),
        if_neg (fun hk => h BsdError.E2BIG hk.symm),
        if_neg (fun hk => h BsdError.ENOEXEC hk.symm),
        if_neg (fun hk => h BsdError.EBADF hk.symm),
        if_neg (fun hk => h BsdError.ECHILD hk.symm),
        if_neg (fun hk => h BsdError.EDEADLK hk.symm),
        if_neg (fun hk => h BsdError.ENOMEM hk.symm),
        if_neg (fun hk => h BsdError.EACCES hk.symm),
        if_neg (fun hk => h BsdError.EFAULT hk.symm),
        if_neg (fun hk => h BsdError.ENOTBLK hk.symm),
        if_neg (fun hk => h BsdError.EBUSY hk.symm),
        if_neg (fun hk => h BsdError.EEXIST hk.symm),
        if_neg (fun hk => h BsdError.EXDEV hk.symm),
        if_neg (fun hk => h BsdError.ENODEV hk.symm),
        if_neg (fun hk => h BsdError.ENOTDIR hk.symm),
        if_neg (fun hk => h BsdError.EISDIR hk.symm),
        if_neg (fun hk => h BsdError.EINVAL hk.symm),
        if_neg (fun hk => h BsdError.ENFILE hk.symm),
        if_neg (fun hk => h BsdError.EMFILE hk.symm),
        if_neg (fun hk => h BsdError.ENOTTY hk.symm),
        if_neg (fun hk => h BsdError.ETXTBSY hk.symm),
        if_neg (fun hk => h BsdError.EFBIG hk.symm),
        if_neg (fun hk => h BsdError.ENOSPC hk.symm),
        if_neg (fun hk => h BsdError.ESPIPE hk.symm),
        if_neg (fun hk => h BsdError.EROFS hk.symm),
        if_neg (fun hk => h BsdError.EMLINK hk.symm),
        if_neg (fun hk => h BsdError.EPIPE hk.symm),
        if_neg (fun hk => h BsdError.EDOM hk.symm),
        if_neg (fun hk => h BsdError.ERANGE hk.symm),
        if_neg (fun hk => h BsdError.EAGAIN hk.symm),
        if_neg (fun hk => h BsdError.EINPROGRESS hk.symm),
        if_neg (fun hk => h BsdError.EALREADY hk.symm),
        if_neg (fun hk => h BsdError.ENOTSOCK hk.symm),
        if_neg (fun hk => h BsdError.EDESTADDRREQ hk.symm),
        if_neg (fun hk => h BsdError.EMSGSIZE hk.symm),
        if_neg (fun hk => h BsdError.EPROTOTYPE hk.symm),
        if_neg (fun hk => h BsdError.ENOPROTOOPT hk.symm),
        if_neg (fun hk => h BsdError.EPROTONOSUPPORT hk.symm),
        if_neg (fun hk => h BsdError.ESOCKTNOSUPPORT hk.symm),
        if_neg (fun hk => h BsdError.EOPNOTSUPP hk.symm),
        if_neg (fun hk => h BsdError.EPFNOSUPPORT hk.symm),
        if_neg (fun hk => h BsdError.EAFNOSUPPORT hk.symm),
        if_neg (fun hk => h BsdError.EADDRINUSE hk.symm),
        if_neg (fun hk => h BsdError.EADDRNOTAVAIL hk.symm),
        if_neg (fun hk => h BsdError.ENETDOWN hk.symm),
        if_neg (fun hk => h BsdError.ENETUNREACH hk.symm),
        if_neg (fun hk => h BsdError.ENETRESET hk.symm),
        if_neg (fun hk => h BsdError.ECONNABORTED hk.symm),
        if_neg (fun hk => h BsdError.ECONNRESET hk.symm),
        if_neg (fun hk => h BsdError.ENOBUFS hk.symm),
        if_neg (fun hk => h BsdError.EISCONN hk.symm),
        if_neg (fun hk => h BsdError.ENOTCONN hk.symm),
        if_neg (fun hk => h BsdError.ESHUTDOWN hk.symm),
        if_neg (fun hk => h BsdError.ETIMEDOUT hk.symm),
        if_neg (fun hk => h BsdError.ECONNREFUSED hk.symm),
        if_neg (fun hk => h BsdError.ELOOP hk.symm),
        if_neg (fun hk => h BsdError.ENAMETOOLONG hk.symm),
        if_neg (fun hk => h BsdError.EHOSTDOWN hk.symm),
        if_neg (fun hk => h BsdError.EHOSTUNREACH hk.symm),
        if_neg (fun hk => h BsdError.ENOTEMPTY hk.symm),
        if_neg (fun hk => h BsdError.EPROCLIM hk.symm),
        if_neg (fun hk => h BsdError.EUSERS hk.symm),
        if_neg (fun hk => h BsdError.EDQUOT hk.symm),
        if_neg (fun hk => h BsdError.ESTALE hk.symm),
        if_neg (fun hk => h BsdError.EBADRPC hk.symm),
        if_neg (fun hk => h BsdError.ERPCMISMATCH hk.symm),
        if_neg (fun hk => h BsdError.EPROGUNAVAIL hk.symm),
        if_neg (fun hk => h BsdError.EPROGMISMATCH hk.symm),
        if_neg (fun hk => h BsdError.EPROCUNAVAIL hk.symm),
        if_neg (fun hk => h BsdError.ENOLCK hk.symm),
        if_neg (fun hk => h BsdError.ENOSYS hk.symm),
        if_neg (fun hk => h BsdError.EFTYPE hk.symm),
        if_neg (fun hk => h BsdError.EAUTH hk.symm),
        if_neg (fun hk => h BsdError.ENEEDAUTH hk.symm),
        if_neg (fun hk => h BsdError.EIDRM hk.symm),
        if_neg (fun hk => h BsdError.ENOMSG hk.symm),
        if_neg (fun hk => h BsdError.EOVERFLOW hk.symm),
        if_neg (fun hk => h BsdError.ECANCELED hk.symm),
        if_neg (fun hk => h BsdError.EILSEQ hk.symm),
        if_neg (fun hk => h BsdError.ENOATTR hk.symm),
        if_neg (fun hk => h BsdError.EDOOFUS hk.symm),
        if_neg (fun hk => h BsdError.EBADMSG hk.symm),
        if_neg (fun hk => h BsdError.EMULTIHOP hk.symm),
        if_neg (fun hk => h BsdError.ENOLINK hk.symm),
        if_neg (fun hk => h BsdError.EPROTO hk.symm),
        if_neg (fun hk => h BsdError.ENOTCAPABLE hk.symm),
        if_neg (fun hk => h BsdError.ECAPMODE hk.symm),
        if_neg (fun hk => h BsdError.ENOTRECOVERABLE hk.symm),
        if_neg (fun hk => h BsdError.EOWNERDEAD hk.symm)]
  refine ⟨h1, h2, ?_⟩
  intro n e he
  rcases Classical.em (∃ e2 : BsdError, BsdError.discriminant e2 = n) with ⟨e2, hd⟩ | hno
  · have hs := h1 e2
    rw [hd] at hs
    rw [hs] at he
    injection he with hee
    rw [← hee]
    exact hd
  · have hall : ∀ e2 : BsdError, BsdError.discriminant e2 ≠ n := fun e2 hc => hno ⟨e2, hc⟩
    rw [h2 n hall] at he
    cases he

/-- C2 witness: the lookup evaluated at concrete inputs — the largest
discriminant 96, the non-table inputs 0, -1 and the gap 59, and soundness at
input 1. -/
theorem from_i32_table_correct_witness :
    BsdError.from_i32 96 = some BsdError.EOWNERDEAD ∧
    BsdError.from_i32 0 = none ∧
    BsdError.from_i32 (-1) = none ∧
    BsdError.from_i32 59 = none ∧
    BsdError.discriminant BsdError.EPERM = 1 :=
  ⟨from_i32_table_correct.1 BsdError.EOWNERDEAD,
   from_i32_table_correct.2.1 0 (fun e => by cases e <;> decide),
   from_i32_table_correct.2.1 (-1) (fun e => by cases e <;> decide),
   from_i32_table_correct.2.1 59 (fun e => by cases e <;> decide),
   from_i32_table_correct.2.2 1 BsdError.EPERM (by decide)⟩

/-- C3 counterexample: the claim "every discriminant lies in 1..94" is false
on the code — the enumeration's last row runs `EMULTIHOP = 90` through
`EOWNERDEAD`, so `ENOTRECOVERABLE` and `EOWNERDEAD` carry the discriminants
95 and 96. -/
theorem discriminant_range_claim_false :
    ¬ (∀ e : BsdError, 1 ≤ BsdError.discriminant e ∧ BsdError.discriminant e ≤ 94) :=
  fun h => absurd (h BsdError.EOWNERDEAD).2 (by decide)

/-- C3 amended: every discriminant lies in the range 1 through 96 inclusive,
and the set of defined discriminants has gaps — no variant carries 59 or 79. -/
theorem discriminant_range :
    (∀ e : BsdError, 1 ≤ BsdError.discriminant e ∧ BsdError.discriminant e ≤ 96) ∧
    (∀ e : BsdError, BsdError.discriminant e ≠ 59) ∧
    (∀ e : BsdError, BsdError.discriminant e ≠ 79) := by
  refine ⟨?_, ?_, ?_⟩ <;> intro e <;> cases e <;> decide

/-- C4: `from_i32 1` returns `EPERM`, `EPERM` is the lowest-numbered variant
of the enumeration, and `from_errno` returns `none` when the thread's errno
register holds zero (no prior OS call failed). -/
theorem from_code_one_and_errno_zero :
    BsdError.from_i32 1 = some BsdError.EPERM ∧
    (∀ e : BsdError, BsdError.discriminant BsdError.EPERM ≤ BsdError.discriminant e) ∧
    BsdError.from_errno 0 = none := by
  refine ⟨by decide, ?_, by decide⟩
  intro e
  cases e <;> decide

/-- C5: for every kind type, every cause type, every error dictionary and
every wrapper value, the wrapper's `description` equals the kind's
`description` and the wrapper's `cause` equals the kind's `cause`; the
stored detail appears in neither result, and the wrapper thereby satisfies
the same describable-as-an-error capability (`StdErrorOps`) as its kind. -/
theorem blunder_description_cause_delegate {T C : Type} (ops : StdErrorOps T C)
    (k : T) (d : Option String) :
    Blunder.description ops (Blunder.mk k d) = ops.description k ∧
    Blunder.cause ops (Blunder.mk k d) = ops.cause k :=
  ⟨rfl, rfl⟩

/-- C6: the detail accessor returns exactly what construction stored —
`none` when constructed with `none`, `some s` when constructed with
`some s`, and always `none` for a wrapper produced by the implicit-from
conversion from a bare kind. -/
theorem blunder_detail_exact {T : Type} (k : T) (s : String) :
    (Blunder.mk k none).detail = none ∧
    (Blunder.mk k (some s)).detail = some s ∧
    (Blunder.fromKind k).detail = none :=
  ⟨rfl, rfl, rfl⟩

/-- C7: dereferencing a wrapper is an exact read-only projection — for every
kind and every detail it yields exactly the stored kind (the wrapper and the
kind are untouched: `Blunder.deref` is a pure function of the wrapper). -/
theorem blunder_deref_projection {T : Type} (k : T) (d : Option String) :
    Blunder.deref (Blunder.mk k d) = k :=
  rfl

/-- C8: when the inner kind converts to another error representation via
`conv`, converting the wrapper yields exactly the conversion of the kind
alone, for every detail value — the detail string is discarded. -/
theorem blunder_into_discards_detail {T γ : Type} (conv : T → γ) (k : T) (d : Option String) :
    Blunder.into conv (Blunder.mk k d) = conv k :=
  rfl

/-- C9: the derived field-wise equality on wrappers — equal kind and equal
detail compare equal; equal kind but differing detail compare unequal. -/
theorem blunder_partial_eq {T : Type} (eqT : T → T → Bool) (k1 k2 : T)
    (hk : eqT k1 k2 = true) (d d1 d2 : Option String) (hd : d1 ≠ d2) :
    Blunder.beq eqT (Blunder.mk k1 d) (Blunder.mk k2 d) = true ∧
    Blunder.beq eqT (Blunder.mk k1 d1) (Blunder.mk k2 d2) = false := by
  constructor
  · simp [Blunder.beq, hk]
  · simp [Blunder.beq, hk]
    exact hd

/-- C9 witness: wrapper equality evaluated on concrete `BsdError` wrappers
with equal kinds — same detail compares equal, differing detail unequal. -/
theorem blunder_partial_eq_witness :
    Blunder.beq (fun a b : BsdError => a == b)
      (Blunder.mk BsdError.EPERM (some "x")) (Blunder.mk BsdError.EPERM (some "x")) = true ∧
    Blunder.beq (fun a b : BsdError => a == b)
      (Blunder.mk BsdError.EPERM none) (Blunder.mk BsdError.EPERM (some "x")) = false :=
  blunder_partial_eq (fun a b : BsdError => a == b) BsdError.EPERM BsdError.EPERM (by decide)
    (some "x") none (some "x") (by decide)

/-- C10: the wrapper's Display output neither contains nor depends on the
detail string — for any two details on the same kind the rendered strings
coincide, and both equal the kind's `description`. -/
theorem blunder_display_detail_independent {T C : Type} (ops : StdErrorOps T C)
    (k : T) (d1 d2 : Option String) :
    Blunder.display ops (Blunder.mk k d1) = Blunder.display ops (Blunder.mk k d2) ∧
    Blunder.display ops (Blunder.mk k d1) = ops.description k :=
  ⟨rfl, rfl⟩
